import Mathlib

/-!
Shallow embedding of the session-bootstrap and route-authorization core of
the student-performance / mental-health dashboard frontend (`src/App.jsx`).

The embedded pieces are:
* the persisted-storage snapshot read by the bootstrap effect
  (`localStorage` keys `token`, `role`, `user_id`, `user_name`);
* the session object built by the bootstrap `useEffect`;
* the `handleLogin` / `handleLogout` state transitions;
* the `<Routes>` decision table as a pure function
  `decide : Option Session → String → Decision`.
-/

namespace SPMH

/-- A string-valued key-value snapshot of the four `localStorage` keys the
core reads and writes (`token`, `role`, `user_id`, `user_name`).  A missing
key is `none`, mirroring `localStorage.getItem` returning `null`. -/
structure Storage where
  token : Option String
  role : Option String
  user_id : Option String
  user_name : Option String
deriving Repr, DecidableEq

/-- JavaScript truthiness of a `string | null` value: `null` and the empty
string are falsy, every other string is truthy.  Used to embed the
`if (token && role)` guard in the bootstrap effect. -/
def jsTruthy : Option String → Bool
  | none => false
  | some s => !(s == "")

/-- The in-memory session object: `setUser({ token, role, user_id, name })`
in `App.jsx`.  `user_id` and `name` are carried over from storage without
any check, so they stay optional. -/
structure Session where
  token : String
  role : String
  user_id : Option String
  name : Option String
deriving Repr, DecidableEq

/-- The bootstrap `useEffect` of `App.jsx`: read the four keys, and set the
user only when `token && role` is truthy; otherwise the user stays `null`. -/
def bootstrap (st : Storage) : Option Session :=
  if jsTruthy st.token && jsTruthy st.role then
    some { token := st.token.getD ""
           role := st.role.getD ""
           user_id := st.user_id
           name := st.user_name }
  else
    none

/-- The renderable views imported by `App.jsx` and used as route elements. -/
inductive View where
  | Login
  | Signup
  | StudentDashboard
  | TeacherDashboard
  | CounselorDashboard
  | StudentQuestionnaire
  | Chat
deriving Repr, DecidableEq

/-- The outcome of evaluating a route element: either render a view, or a
`<Navigate to=path />` redirect. -/
inductive Decision where
  | Render (v : View)
  | RedirectTo (path : String)
deriving Repr, DecidableEq

/-- `user?.role` in `App.jsx`: the role of the current user, if any. -/
def optRole (user : Option Session) : Option String :=
  user.map Session.role

/-- The element of the root (`/`) route in `App.jsx`: nested ternaries on
`user.role`, with `CounselorDashboard` as the final fallback, and a
redirect to `/login` when the user is `null`. -/
def rootElement (user : Option Session) : Decision :=
  match user with
  | some u =>
      if u.role == "student" then .Render .StudentDashboard
      else if u.role == "teacher" then .Render .TeacherDashboard
      else .Render .CounselorDashboard
  | none => .RedirectTo "/login"

/-- The `<Routes>` table of `App.jsx` as a decision function on the current
user and the requested path.  Each branch transcribes one `<Route>`
element; the final branch is the wildcard `<Route path="*">`. -/
def decide (user : Option Session) (path : String) : Decision :=
  if path == "/login" then
    match user with
    | none => .Render .Login
    | some _ => .RedirectTo "/"
  else if path == "/signup" then
    match user with
    | none => .Render .Signup
    | some _ => .RedirectTo "/"
  else if path == "/" then
    rootElement user
  else if path == "/student" then
    if optRole user == some "student" then .Render .StudentDashboard
    else .RedirectTo "/"
  else if path == "/questionnaire" then
    if optRole user == some "student" then .Render .StudentQuestionnaire
    else .RedirectTo "/"
  else if path == "/teacher" then
    if optRole user == some "teacher" then .Render .TeacherDashboard
    else .RedirectTo "/"
  else if path == "/counselor" then
    if optRole user == some "counselor" then .Render .CounselorDashboard
    else .RedirectTo "/"
  else if path == "/chat" then
    match user with
    | some _ => .Render .Chat
    | none => .RedirectTo "/login"
  else
    .RedirectTo "/"

/-- The paths declared by the `<Route>` elements of `App.jsx`, wildcard
aside. -/
def declaredPaths : List String :=
  ["/login", "/signup", "/", "/student", "/questionnaire", "/teacher",
   "/counselor", "/chat"]

/-- The role-protected paths of `App.jsx`: the routes whose element checks
`user?.role` against a specific role. -/
def roleProtectedPaths : List String :=
  ["/student", "/questionnaire", "/teacher", "/counselor"]

/-- The whole mutable state of the `App` component that the core touches:
the `user` React state and the persisted storage. -/
structure AppState where
  user : Option Session
  storage : Storage
deriving Repr, DecidableEq

/-- A storage snapshot with every key absent: the result of
`localStorage.clear()`. -/
def emptyStorage : Storage :=
  { token := none, role := none, user_id := none, user_name := none }

/-- `handleLogin` in `App.jsx`: `setUser(userData)` and nothing else. -/
def handleLogin (st : AppState) (userData : Session) : AppState :=
  { st with user := some userData }

/-- `handleLogout` in `App.jsx`: `localStorage.clear()` then
`setUser(null)`. -/
def handleLogout (_st : AppState) : AppState :=
  { user := none, storage := emptyStorage }

/-- Following `<Navigate>` redirects until a view is rendered, with fuel:
the browser re-enters the route table at the redirect target with the same
user. -/
def navigate : Nat → Option Session → String → Option View
  | 0, _, _ => none
  | fuel + 1, user, path =>
      match decide user path with
      | .Render v => some v
      | .RedirectTo p => navigate fuel user p

/-- Claim C1, counterexample: with an absent session, the element of the
role-protected route `/teacher` is `<Navigate to="/" />`, not a redirect to
`/login`: the claimed equation `decide(None, "/teacher") ==
RedirectTo("/login")` is false on the code. -/
theorem C1_counterexample :
    decide none "/teacher" = Decision.RedirectTo "/" ∧
    decide none "/teacher" ≠ Decision.RedirectTo "/login" := by
  exact ⟨rfl, by decide⟩

/-- Claim C1, amended: with an absent session, every role-protected route
(`/student`, `/questionnaire`, `/teacher`, `/counselor`) decides
`RedirectTo("/")` in one step, and following the redirect chain (through
`/` and then `/login`) ends with the Login view rendered. -/
theorem C1_absent_role_protected (p : String) (h : p ∈ roleProtectedPaths) :
    decide none p = Decision.RedirectTo "/" ∧
    navigate 3 none p = some View.Login := by
  fin_cases h <;> exact ⟨rfl, rfl⟩

/-- Claim C1, witness: the amended statement evaluated at `/teacher`. -/
theorem C1_witness :
    decide none "/teacher" = Decision.RedirectTo "/" ∧
    navigate 3 none "/teacher" = some View.Login :=
  C1_absent_role_protected "/teacher" (by decide)

/-- Claim C2: `bootstrap` yields a present session exactly when both the
persisted `token` and `role` are present and non-empty; on every other
storage state it yields `none` (and, being a total function into
`Option Session`, it never raises an error). -/
theorem C2_bootstrap_some_iff (st : Storage) :
    (bootstrap st).isSome ↔
      ((∃ t, st.token = some t ∧ t ≠ "") ∧ (∃ r, st.role = some r ∧ r ≠ "")) := by
  obtain ⟨tok, rol, uid, nm⟩ := st
  cases tok <;> cases rol <;> simp [bootstrap, jsTruthy]

/-- Claim C3, counterexample: a storage holding a token and a role but no
`user_id` and no `user_name` still bootstraps to a present session, whose
`user_id` field is absent — the session is not fully populated, refuting
the claim that every bootstrapped session has all four fields present. -/
theorem C3_counterexample :
    (bootstrap ⟨some "abc", some "student", none, none⟩).isSome = true ∧
    Option.map Session.user_id
      (bootstrap ⟨some "abc", some "student", none, none⟩) = some none := by
  exact ⟨rfl, rfl⟩

/-- Claim C3, amended: a bootstrapped session always has a non-empty token
and a non-empty role, and a persisted token with no role yields an absent
session; but the `user_id` and `name` fields are copied from storage
unchecked and may be absent. -/
theorem C3_session_shape (st : Storage) :
    (st.role = none → bootstrap st = none) ∧
    (∀ s, bootstrap st = some s →
      s.token ≠ "" ∧ s.role ≠ "" ∧ s.user_id = st.user_id ∧ s.name = st.user_name) := by
  obtain ⟨tok, rol, uid, nm⟩ := st
  constructor
  · rintro rfl
    cases tok <;> simp [bootstrap, jsTruthy]
  · rintro s hs
    cases tok with
    | none => simp [bootstrap, jsTruthy] at hs
    | some t =>
      cases rol with
      | none => simp [bootstrap, jsTruthy] at hs
      | some r =>
        unfold bootstrap at hs
        split at hs
        next hcond =>
          cases hs
          simp only [jsTruthy, Bool.and_eq_true, Bool.not_eq_true',
            beq_eq_false_iff_ne] at hcond
          exact ⟨hcond.1, hcond.2, rfl, rfl⟩
        next => cases hs

/-- Claim C3, witness: the amended statement evaluated on a storage with
no role (first conjunct) and on a fully-populated storage (second
conjunct). -/
theorem C3_witness :
    bootstrap ⟨some "abc", none, none, none⟩ = none ∧
    (("abc" : String) ≠ "" ∧ ("student" : String) ≠ "" ∧
      (some "7" : Option String) = some "7" ∧
      (some "Ann" : Option String) = some "Ann") :=
  ⟨(C3_session_shape ⟨some "abc", none, none, none⟩).1 rfl,
   (C3_session_shape ⟨some "abc", some "student", some "7", some "Ann"⟩).2
     ⟨"abc", "student", some "7", some "Ann"⟩ rfl⟩

/-- Claim C4: with a present session, the root route renders the dashboard
bound to the session role — StudentDashboard for "student",
TeacherDashboard for "teacher", and CounselorDashboard for every other
role value. -/
theorem C4_root_dashboard (s : Session) :
    (s.role = "student" → decide (some s) "/" = Decision.Render View.StudentDashboard) ∧
    (s.role = "teacher" → decide (some s) "/" = Decision.Render View.TeacherDashboard) ∧
    (s.role ≠ "student" → s.role ≠ "teacher" →
      decide (some s) "/" = Decision.Render View.CounselorDashboard) := by
  refine ⟨fun h => ?_, fun h => ?_, fun h1 h2 => ?_⟩
  · simp [decide, rootElement, h]
  · simp [decide, rootElement, h]
  · simp [decide, rootElement, h1, h2]

/-- Claim C4, witness: the three role cases evaluated at concrete
sessions, including an unrecognized role ("admin") falling back to the
counselor dashboard. -/
theorem C4_witness :
    decide (some ⟨"t", "student", none, none⟩) "/" = Decision.Render View.StudentDashboard ∧
    decide (some ⟨"t", "teacher", none, none⟩) "/" = Decision.Render View.TeacherDashboard ∧
    decide (some ⟨"t", "admin", none, none⟩) "/" = Decision.Render View.CounselorDashboard :=
  ⟨(C4_root_dashboard ⟨"t", "student", none, none⟩).1 rfl,
   (C4_root_dashboard ⟨"t", "teacher", none, none⟩).2.1 rfl,
   (C4_root_dashboard ⟨"t", "admin", none, none⟩).2.2 (by decide) (by decide)⟩

/-- Claim C5: the public paths `/login` and `/signup` render their own
views for an absent session, and redirect to `/` for every present
session. -/
theorem C5_public_paths :
    decide none "/login" = Decision.Render View.Login ∧
    decide none "/signup" = Decision.Render View.Signup ∧
    ∀ s : Session,
      decide (some s) "/login" = Decision.RedirectTo "/" ∧
      decide (some s) "/signup" = Decision.RedirectTo "/" :=
  ⟨rfl, rfl, fun _ => ⟨rfl, rfl⟩⟩

/-- Claim C6: `/chat` renders the Chat view for every present session,
whatever its role, and redirects an absent session to `/login`. -/
theorem C6_chat :
    (∀ s : Session, decide (some s) "/chat" = Decision.Render View.Chat) ∧
    decide none "/chat" = Decision.RedirectTo "/login" :=
  ⟨fun _ => rfl, rfl⟩

/-- Claim C7: `decide` is a total function (by its type), and every path
matching none of the declared routes falls to the wildcard route and
resolves to `RedirectTo("/")`, for any session. -/
theorem C7_wildcard (user : Option Session) (path : String)
    (h : path ∉ declaredPaths) :
    decide user path = Decision.RedirectTo "/" := by
  simp only [declaredPaths, List.mem_cons, List.not_mem_nil, or_false, not_or] at h
  obtain ⟨h1, h2, h3, h4, h5, h6, h7, h8⟩ := h
  simp [decide, h1, h2, h3, h4, h5, h6, h7, h8]

/-- Claim C7, witness: the wildcard decision evaluated at the undeclared
path `/nope` with an absent session. -/
theorem C7_witness : decide none "/nope" = Decision.RedirectTo "/" :=
  C7_wildcard none "/nope" (by decide)

/-- Claim C8: `handleLogout` is idempotent — a second logout yields the
same state as the first, the logged-out state has no session and empty
storage, and in that state the root path decides `RedirectTo("/login")`. -/
theorem C8_logout_idempotent (st : AppState) :
    handleLogout (handleLogout st) = handleLogout st ∧
    (handleLogout st).user = none ∧
    (handleLogout st).storage = emptyStorage ∧
    decide none "/" = Decision.RedirectTo "/login" :=
  ⟨rfl, rfl, rfl, rfl⟩

/-- Claim C9: the routing decision for a present session depends only on
its role — two sessions with equal roles receive the same decision on
every path, regardless of token, user_id and name. -/
theorem C9_role_noninterference (s1 s2 : Session) (path : String)
    (h : s1.role = s2.role) :
    decide (some s1) path = decide (some s2) path := by
  simp [decide, rootElement, optRole, h]

/-- Claim C9, witness: two sessions sharing the role "student" but
differing in every other field receive the same decision at `/teacher`. -/
theorem C9_witness :
    decide (some ⟨"a", "student", none, none⟩) "/teacher"
      = decide (some ⟨"b", "student", some "7", some "Ann"⟩) "/teacher" :=
  C9_role_noninterference ⟨"a", "student", none, none⟩
    ⟨"b", "student", some "7", some "Ann"⟩ "/teacher" rfl

/-- Claim C10: `handleLogin` only replaces the in-memory session — the
persisted storage is untouched, so a fresh bootstrap from that storage
sees exactly the state from before the login. -/
theorem C10_login_frame (st : AppState) (s : Session) :
    (handleLogin st s).storage = st.storage ∧
    bootstrap (handleLogin st s).storage = bootstrap st.storage ∧
    (handleLogin st s).user = some s :=
  ⟨rfl, rfl, rfl⟩

end SPMH
